import Mathlib

/-!
Shallow embedding of the genzshop storefront backend (src/server.py).

The embedded surface is the part the verified claims are about: the cart
endpoints `add_to_cart` (POST /api/cart) and `update_cart_item`
(PATCH /api/cart/{id}), direct order creation `create_order`
(POST /api/orders), and the checkout transaction `checkout_order`
(POST /api/orders/checkout), together with the sqlite tables they touch
(`products`, `cart_items`, `customers`) and the NOT NULL constraint on
`cart_items.cart_id` from `init_db`.

Modelling conventions:
* JSON values that the handlers coerce numerically are modelled by `PyVal`
  (null / string / int / float, a float carried as an exact rational);
  fields the handlers only ever treat as text are modelled as
  `Option String` (`none` = key absent or JSON null, which
  `data.get(k) or d` maps to the default exactly like an empty string).
* `REAL` columns are carried as `PyVal` because `create_order` stores the
  raw caller value for `price`/`shipping`/`total` (sqlite type affinity
  converts well-formed numeric text, which never changes the numeric
  reading `py_float` used below).
* AUTOINCREMENT row ids are modelled by `next_cart_item_id` /
  `next_customer_id` counters; `cur.lastrowid` is the id just inserted.
* An uncaught Python exception in a handler (Flask's 500) and a caught
  sqlite error (`except ... return 500`) are both modelled as an explicit
  server-error result with the state unchanged in committed terms.
-/

namespace GenzShop

/-- A JSON scalar as the Python handlers see it after `request.get_json()`. -/
inductive PyVal where
  | vNone
  | vStr (s : String)
  | vInt (n : Int)
  | vFloat (q : ℚ)
deriving Repr, DecidableEq

/-- Python truthiness of a `PyVal` (`None`, `""`, `0`, `0.0` are falsy). -/
def py_truthy : PyVal → Bool
  | .vNone => false
  | .vStr s => decide (¬ s = "")
  | .vInt n => decide (¬ n = 0)
  | .vFloat q => decide (¬ q = 0)

/-- Models `data.get(key) or d` for a numerically-used field. -/
def py_or (v : Option PyVal) (d : PyVal) : PyVal :=
  match v with
  | none => d
  | some w => if py_truthy w then w else d

/-- Models `data.get(key) or ''` for a text field (absent and `''` both map to `''`). -/
def str_or_empty (v : Option String) : String := v.getD ""

/-- Models `data.get(key) or d` for a text field with non-empty default `d`. -/
def str_or (v : Option String) (d : String) : String :=
  match v with
  | none => d
  | some s => if s = "" then d else s

/-- Python `str.strip()`: whitespace removed from both ends (character-list
    form, over `String.toList`). -/
def trim_chars (cs : List Char) : List Char :=
  ((cs.dropWhile Char.isWhitespace).reverse.dropWhile Char.isWhitespace).reverse

/-- The numeric value of a non-empty all-digit character list, else `none`. -/
def digits_to_nat (cs : List Char) : Option Nat :=
  if cs = [] ∨ ¬ cs.all Char.isDigit then none
  else some (cs.foldl (fun a c => a * 10 + (c.toNat - 48)) 0)

/-- Python `int(s)` on a string: optional sign, then decimal digits
    (surrounding whitespace stripped); anything else raises. -/
def parse_int (s : String) : Option Int :=
  match trim_chars s.toList with
  | '-' :: rest => (digits_to_nat rest).map (fun n => -(n : Int))
  | '+' :: rest => (digits_to_nat rest).map (fun n => (n : Int))
  | cs => (digits_to_nat cs).map (fun n => (n : Int))

/-- Python `float` on an unsigned decimal literal `digits[.digits]` (at
    least one digit around an optional single dot). -/
def parse_unsigned_float (cs : List Char) : Option ℚ :=
  if cs.contains '.' then
    let a := cs.takeWhile (fun c => ! decide (c = '.'))
    let b := (cs.dropWhile (fun c => ! decide (c = '.'))).drop 1
    if b.contains '.' then none
    else if a = [] ∧ b = [] then none
    else
      match (if a = [] then some 0 else digits_to_nat a),
          (if b = [] then some 0 else digits_to_nat b) with
      | some x, some y => some ((x : ℚ) + (y : ℚ) / ((10 : ℚ) ^ b.length))
      | _, _ => none
  else (digits_to_nat cs).map (fun n => (n : ℚ))

/-- Python `float(s)` on a string: optional sign around
    `parse_unsigned_float`, whitespace stripped; anything else raises. -/
def parse_float (s : String) : Option ℚ :=
  match trim_chars s.toList with
  | '-' :: rest => (parse_unsigned_float rest).map (fun q => -q)
  | '+' :: rest => parse_unsigned_float rest
  | cs => parse_unsigned_float cs

/-- Python `int(v)`: identity on ints, truncation toward zero on floats,
    `parse_int` on strings; `none` means the call raises. -/
def py_int : PyVal → Option Int
  | .vNone => none
  | .vStr s => parse_int s
  | .vInt n => some n
  | .vFloat q => some (Int.tdiv q.num (q.den : Int))

/-- Python `float(v)`: `none` means the call raises. -/
def py_float : PyVal → Option ℚ
  | .vNone => none
  | .vStr s => parse_float s
  | .vInt n => some (n : ℚ)
  | .vFloat q => some q

/-- Models `isinstance(v, (int, float, str)) and str(v).isdigit()` from
    `add_to_cart`: `str` of a non-negative int is all digits, `str` of a
    float always contains a dot or exponent, and `String.toNat?` succeeds
    exactly on non-empty all-digit strings. -/
def py_str_isdigit : PyVal → Bool
  | .vNone => false
  | .vStr s => decide (¬ s.toList = []) && s.toList.all Char.isDigit
  | .vInt n => decide (0 ≤ n)
  | .vFloat _ => false

/-- The quantity coercion of `add_to_cart` (src/server.py lines 363-368):
    `int(quantity)` when `str(quantity).isdigit()`, else 1; then a
    non-positive result is replaced by 1. -/
def coerce_cart_quantity (quantity : Option PyVal) : Int :=
  match quantity with
  | none => 1
  | some v =>
    if py_str_isdigit v then
      let q : Int := (py_int v).getD 1
      if q ≤ 0 then 1 else q
    else 1

/-- A row of the `products` table (the columns the embedded endpoints read;
    `id` is the INTEGER PRIMARY KEY). -/
structure Product where
  id : Int
  name : String
  price : ℚ
deriving Repr, DecidableEq

/-- A row of the `cart_items` table; `cart_id` is TEXT NOT NULL, so the
    stored value is a plain `String`. -/
structure CartItem where
  id : Int
  cart_id : String
  product_id : Int
  size : String
  color : String
  quantity : Int
deriving Repr, DecidableEq

/-- A row of the `customers` table (order rows). `price`, `shipping` and
    `total` are the raw values the handlers bind into the INSERT. -/
structure Customer where
  id : Int
  product : String
  color : String
  size : String
  amount : Int
  name : String
  phone : String
  gov : String
  city : String
  address : String
  price : PyVal
  shipping : PyVal
  total : PyVal
  addition : String
  date : String
deriving Repr, DecidableEq

/-- The persistent store: the three tables plus the AUTOINCREMENT counters. -/
structure DB where
  products : List Product
  cart_items : List CartItem
  customers : List Customer
  next_cart_item_id : Int
  next_customer_id : Int
deriving Repr, DecidableEq

/-- A sqlite error surfaced by an INSERT. -/
inductive StoreError where
  | notNullViolation (column : String)
deriving Repr, DecidableEq

/-- The INSERT into `cart_items`: binding `None` for the NOT NULL `cart_id`
    column raises an IntegrityError; otherwise the row is appended with the
    next AUTOINCREMENT id. -/
def insert_cart_item (db : DB) (cart_id : Option String) (product_id : Int)
    (size color : String) (qty : Int) : Except StoreError (Int × DB) :=
  match cart_id with
  | none => .error (.notNullViolation "cart_items.cart_id")
  | some cid =>
      .ok (db.next_cart_item_id,
        { db with
          cart_items := db.cart_items ++
            [{ id := db.next_cart_item_id, cart_id := cid, product_id := product_id,
               size := size, color := color, quantity := qty }]
          next_cart_item_id := db.next_cart_item_id + 1 })

/-- Request body of POST /api/cart. `product_id` is typed as the integer id
    it is checked and joined as; `none` covers an absent key and JSON null,
    and the value 0 is falsy like an absent one. -/
structure AddCartInput where
  product_id : Option Int
  size : Option String
  color : Option String
  quantity : Option PyVal
deriving Repr

/-- Outcome of POST /api/cart: 201 with the new row id, 400 on a falsy
    `product_id`, or 500 when the INSERT raises. -/
inductive AddCartResult where
  | created (id : Int)
  | missingProduct
  | storeError
deriving Repr, DecidableEq

/-- POST /api/cart (src/server.py lines 351-379). -/
def add_to_cart (db : DB) (cart_cookie : Option String) (inp : AddCartInput) :
    AddCartResult × DB :=
  match inp.product_id with
  | none => (.missingProduct, db)
  | some pid =>
    if pid = 0 then (.missingProduct, db)
    else
      let qty := coerce_cart_quantity inp.quantity
      match insert_cart_item db cart_cookie pid (str_or_empty inp.size)
          (str_or_empty inp.color) qty with
      | .error _ => (.storeError, db)
      | .ok (rid, db2) => (.created rid, db2)

/-- Request body of PATCH /api/cart/{id}. -/
structure UpdateCartInput where
  quantity : Option PyVal
deriving Repr

/-- Outcome of PATCH /api/cart/{id}: 200, 400 missing quantity, 400
    non-integer quantity, or 404. -/
inductive UpdateCartResult where
  | ok
  | missingQuantity
  | badQuantity
  | notFound
deriving Repr, DecidableEq

/-- The WHERE clause `id = ? AND cart_id = ?` of the PATCH/DELETE cart
    statements; comparing against a NULL cookie matches no row. -/
def cart_line_matches (item_id : Int) (cart_cookie : Option String) (ci : CartItem) : Bool :=
  decide (ci.id = item_id) && decide (some ci.cart_id = cart_cookie)

/-- PATCH /api/cart/{id} (src/server.py lines 396-419): a missing or null
    quantity is a 400, a non-integer-coercible one a 400, a value ≤ 0 runs
    the DELETE, a positive one the UPDATE; `rowcount == 0` after either
    statement is a 404 (the statement then matched, and changed, nothing). -/
def update_cart_item (db : DB) (cart_cookie : Option String) (item_id : Int)
    (inp : UpdateCartInput) : UpdateCartResult × DB :=
  match inp.quantity with
  | none => (.missingQuantity, db)
  | some .vNone => (.missingQuantity, db)
  | some qv =>
    match py_int qv with
    | none => (.badQuantity, db)
    | some qty =>
      let matched := db.cart_items.countP (cart_line_matches item_id cart_cookie)
      let db2 :=
        if qty ≤ 0 then
          { db with cart_items :=
              db.cart_items.filter (fun ci => ! cart_line_matches item_id cart_cookie ci) }
        else
          { db with cart_items :=
              db.cart_items.map (fun ci =>
                if cart_line_matches item_id cart_cookie ci then { ci with quantity := qty }
                else ci) }
      if matched = 0 then (.notFound, db2) else (.ok, db2)

/-- Request body of POST /api/orders. -/
structure OrderInput where
  product : Option String
  color : Option String
  size : Option String
  amount : Option PyVal
  name : Option String
  phone : Option String
  gov : Option String
  city : Option String
  address : Option String
  price : Option PyVal
  shipping : Option PyVal
  total : Option PyVal
  addition : Option String
  date : Option String
deriving Repr

/-- Outcome of POST /api/orders: 201 with the new id, or a 500 (the
    uncaught `int(...)` ValueError on a non-coercible amount). -/
inductive CreateOrderResult where
  | created (id : Int)
  | serverError
deriving Repr, DecidableEq

/-- The `customers` row `create_order` inserts, given the already-coerced
    `amount = int(data.get('amount') or 1)`. The total is
    `float(price) * max(amount, 1) + float(shipping or 0)` when both
    conversions succeed, else the fallback `data.get('total') or 0`
    (src/server.py lines 425-452). -/
def create_order_row (inp : OrderInput) (now : String) (nid : Int) (amount : Int) : Customer :=
  let priceV := py_or inp.price (.vInt 0)
  let shippingV := py_or inp.shipping (.vInt 0)
  let totalV : PyVal :=
    match py_float priceV, py_float shippingV with
    | some p, some s => .vFloat (p * ((max amount 1 : Int) : ℚ) + s)
    | _, _ => py_or inp.total (.vInt 0)
  { id := nid
    product := str_or_empty inp.product
    color := str_or_empty inp.color
    size := str_or_empty inp.size
    amount := amount
    name := str_or_empty inp.name
    phone := str_or_empty inp.phone
    gov := str_or_empty inp.gov
    city := str_or_empty inp.city
    address := str_or_empty inp.address
    price := priceV
    shipping := shippingV
    total := totalV
    addition := str_or_empty inp.addition
    date := str_or inp.date now }

/-- POST /api/orders (src/server.py lines 423-466). `now` is the timestamp
    string `datetime.now().strftime(...)` used when no date is supplied. -/
def create_order (db : DB) (inp : OrderInput) (now : String) : CreateOrderResult × DB :=
  match py_int (py_or inp.amount (.vInt 1)) with
  | none => (.serverError, db)
  | some amount =>
      (.created db.next_customer_id,
        { db with
          customers := db.customers ++ [create_order_row inp now db.next_customer_id amount]
          next_customer_id := db.next_customer_id + 1 })

/-- Request body of POST /api/orders/checkout. `shipping` is typed at the
    number the handler converts it to (`float(shipping or 0)`). -/
structure CheckoutInput where
  name : Option String
  phone : Option String
  gov : Option String
  city : Option String
  address : Option String
  addition : Option String
  shipping : Option ℚ
  date : Option String
deriving Repr

/-- Outcome of POST /api/orders/checkout. -/
inductive CheckoutResult where
  | ok (created : List Int)
  | missingFields
  | noCart
  | emptyCart
deriving Repr, DecidableEq

/-- The rows of `cart_items` for one cart identity, ordered by
    `cart_items.id ASC` as in the checkout SELECT. -/
def cart_rows (db : DB) (cid : String) : List CartItem :=
  (db.cart_items.filter (fun ci => decide (ci.cart_id = cid))).insertionSort
    (fun a b => a.id ≤ b.id)

/-- The checkout SELECT: cart rows for the identity inner-joined with
    `products` on `products.id = cart_items.product_id` (`id` is the
    primary key, so at most one product matches), ordered by cart line id. -/
def joined_cart (db : DB) (cid : String) : List (CartItem × Product) :=
  (cart_rows db cid).filterMap
    (fun ci => (db.products.find? (fun p => decide (p.id = ci.product_id))).map
      (fun p => (ci, p)))

/-- The buyer-side locals `checkout_order` computes from its JSON body. -/
structure BuyerFields where
  name : String
  phone : String
  gov : String
  city : String
  address : String
  addition : String
  date_val : String
  shipping : ℚ
deriving Repr, DecidableEq

/-- Models lines 498-505 of src/server.py. -/
def checkout_buyer (inp : CheckoutInput) (now : String) : BuyerFields :=
  { name := str_or_empty inp.name
    phone := str_or_empty inp.phone
    gov := str_or_empty inp.gov
    city := str_or_empty inp.city
    address := str_or_empty inp.address
    addition := str_or_empty inp.addition
    date_val := str_or inp.date now
    shipping := inp.shipping.getD 0 }

/-- One loop body of checkout (src/server.py lines 533-558):
    `qty = int(quantity or 1)` (the stored quantity is an integer, so only
    a stored 0 is replaced), `unit_price = float(product_price or 0)`
    (the stored price is a number, so this is the price itself), and
    `line_total = unit_price * max(qty, 1) + float(shipping or 0)`. -/
def checkout_row (b : BuyerFields) (nid : Int) (it : CartItem × Product) : Customer :=
  let qty : Int := if it.1.quantity = 0 then 1 else it.1.quantity
  let unit_price : ℚ := it.2.price
  let line_total : ℚ := unit_price * ((max qty 1 : Int) : ℚ) + b.shipping
  { id := nid
    product := it.2.name
    color := it.1.color
    size := it.1.size
    amount := max qty 1
    name := b.name
    phone := b.phone
    gov := b.gov
    city := b.city
    address := b.address
    price := .vFloat unit_price
    shipping := .vFloat b.shipping
    total := .vFloat line_total
    addition := b.addition
    date := b.date_val }

/-- The checkout insert loop: one `customers` row per joined line, ids
    assigned sequentially, `created_ids` collecting each `lastrowid`. -/
def insert_checkout_rows (b : BuyerFields) (nid : Int) :
    List (CartItem × Product) → List Customer × List Int
  | [] => ([], [])
  | it :: rest =>
      let row := checkout_row b nid it
      let (rows, ids) := insert_checkout_rows b (nid + 1) rest
      (row :: rows, nid :: ids)

/-- POST /api/orders/checkout (src/server.py lines 491-581): validate the
    five required buyer fields (plain truthiness, no trimming), require a
    cart cookie (an empty cookie value is falsy), load the joined cart,
    fail 400 when it is empty, else insert one order row per joined line
    and delete every cart line of the identity. -/
def checkout_order (db : DB) (cart_cookie : Option String) (inp : CheckoutInput)
    (now : String) : CheckoutResult × DB :=
  let b := checkout_buyer inp now
  if b.name = "" ∨ b.phone = "" ∨ b.gov = "" ∨ b.city = "" ∨ b.address = "" then
    (.missingFields, db)
  else
    match cart_cookie with
    | none => (.noCart, db)
    | some cid =>
      if cid = "" then (.noCart, db)
      else
        let items := joined_cart db cid
        if items = [] then (.emptyCart, db)
        else
          let (rows, ids) := insert_checkout_rows b db.next_customer_id items
          (.ok ids,
            { db with
              customers := db.customers ++ rows
              next_customer_id := db.next_customer_id + (items.length : Int)
              cart_items := db.cart_items.filter (fun ci => ! decide (ci.cart_id = cid)) })

/-- The order-row pricing invariant of the spec, read off a stored row:
    the three numeric fields convert and `total = price * amount + shipping`. -/
def order_invariant (c : Customer) : Bool :=
  match py_float c.price, py_float c.shipping, py_float c.total with
  | some p, some s, some t => decide (t = p * (c.amount : ℚ) + s)
  | _, _, _ => false

/-- A concrete store for the concrete theorems: one product priced 250.0 and
    a cart identity "c" holding it on two lines, quantities 2 then 1 in line
    id order. -/
def sampleDB : DB :=
  { products := [{ id := 1, name := "tee", price := 250 }]
    cart_items :=
      [{ id := 1, cart_id := "c", product_id := 1, size := "M", color := "black", quantity := 2 },
       { id := 2, cart_id := "c", product_id := 1, size := "L", color := "black", quantity := 1 }]
    customers := []
    next_cart_item_id := 3
    next_customer_id := 1 }

/-- A store with all three tables empty. -/
def emptyDB : DB :=
  { products := [], cart_items := [], customers := [],
    next_cart_item_id := 1, next_customer_id := 1 }

/-- A fully valid checkout body with shippingCost 30. -/
def sampleCheckout : CheckoutInput :=
  { name := some "Ana", phone := some "0100", gov := some "Cairo", city := some "Giza",
    address := some "1 Main St", addition := none, shipping := some 30,
    date := some "2024-01-01" }

/-- The valid checkout body with the buyer name replaced by a single space. -/
def wsNameCheckout : CheckoutInput := { sampleCheckout with name := some " " }

/-- An /api/orders body whose numeric fields are price 10, shipping 0 and
    amount -2. -/
def negAmountOrder : OrderInput :=
  { product := some "tee", color := none, size := none, amount := some (.vInt (-2)),
    name := some "Ana", phone := some "0100", gov := some "Cairo", city := some "Giza",
    address := some "1 Main St", price := some (.vInt 10), shipping := some (.vInt 0),
    total := none, addition := none, date := some "2024-01-01" }

/-- The same /api/orders body with the non-numeric amount string "abc". -/
def strAmountOrder : OrderInput := { negAmountOrder with amount := some (.vStr "abc") }

/-- The same /api/orders body with a non-numeric price string. -/
def strPriceOrder : OrderInput := { negAmountOrder with price := some (.vStr "x") }

/-- A pre-existing order row (with non-numeric stored price), used by the
    concrete instantiations. -/
def seedCustomer : Customer :=
  { id := 7, product := "tee", color := "", size := "", amount := 1, name := "Ana",
    phone := "0100", gov := "Cairo", city := "Giza", address := "1 Main St",
    price := .vStr "x", shipping := .vStr "x", total := .vInt 5, addition := "",
    date := "2024-01-01" }

/-- The empty store with the one pre-existing order row. -/
def seededDB : DB := { emptyDB with customers := [seedCustomer] }

/- Helper lemmas about the checkout insert loop. -/

theorem insert_checkout_rows_nil (b : BuyerFields) (nid : Int) :
    insert_checkout_rows b nid [] = ([], []) := rfl

theorem insert_checkout_rows_cons (b : BuyerFields) (nid : Int) (it : CartItem × Product)
    (rest : List (CartItem × Product)) :
    insert_checkout_rows b nid (it :: rest) =
      (checkout_row b nid it :: (insert_checkout_rows b (nid + 1) rest).1,
       nid :: (insert_checkout_rows b (nid + 1) rest).2) := rfl

theorem insert_checkout_rows_length (b : BuyerFields) (nid : Int)
    (items : List (CartItem × Product)) :
    (insert_checkout_rows b nid items).1.length = items.length := by
  induction items generalizing nid with
  | nil => rfl
  | cons it rest ih => simp [insert_checkout_rows_cons, ih]

theorem insert_checkout_rows_ids (b : BuyerFields) (nid : Int)
    (items : List (CartItem × Product)) :
    (insert_checkout_rows b nid items).2 =
      (insert_checkout_rows b nid items).1.map (fun c => c.id) := by
  induction items generalizing nid with
  | nil => rfl
  | cons it rest ih => simp [insert_checkout_rows_cons, ih, checkout_row]

theorem insert_checkout_rows_get (b : BuyerFields) (nid : Int)
    (items : List (CartItem × Product)) (i : ℕ)
    (h1 : i < (insert_checkout_rows b nid items).1.length) (h2 : i < items.length) :
    (insert_checkout_rows b nid items).1.get ⟨i, h1⟩ =
      checkout_row b (nid + (i : Int)) (items.get ⟨i, h2⟩) := by
  induction items generalizing nid i with
  | nil => simp at h2
  | cons it rest ih =>
    cases i with
    | zero => simp [insert_checkout_rows_cons]
    | succ j =>
      have hj1 : j < (insert_checkout_rows b (nid + 1) rest).1.length := by
        have := h1
        simpa [insert_checkout_rows_cons, Nat.succ_lt_succ_iff] using this
      have hj2 : j < rest.length := by simpa [Nat.succ_lt_succ_iff] using h2
      have := ih (nid + 1) j hj1 hj2
      simp only [insert_checkout_rows_cons, List.get_cons_succ]
      rw [this]
      congr 1
      push_cast
      ring

theorem mem_insert_checkout_rows (b : BuyerFields) (nid : Int)
    (items : List (CartItem × Product)) (c : Customer)
    (h : c ∈ (insert_checkout_rows b nid items).1) :
    ∃ m it, it ∈ items ∧ c = checkout_row b m it := by
  induction items generalizing nid with
  | nil => simp [insert_checkout_rows_nil] at h
  | cons a t ih =>
    rw [insert_checkout_rows_cons] at h
    rcases List.mem_cons.mp h with h | h
    · exact ⟨nid, a, List.mem_cons_self a t, h⟩
    · rcases ih (nid + 1) h with ⟨m, it, hit, hc⟩
      exact ⟨m, it, List.mem_cons_of_mem a hit, hc⟩

/- Helper lemmas about the joined cart view. -/

theorem cart_rows_sorted (db : DB) (cid : String) :
    (cart_rows db cid).Pairwise (fun a b => a.id ≤ b.id) := by
  haveI : IsTotal CartItem (fun a b => a.id ≤ b.id) := ⟨fun a b => Int.le_total a.id b.id⟩
  haveI : IsTrans CartItem (fun a b => a.id ≤ b.id) := ⟨fun _ _ _ h1 h2 => le_trans h1 h2⟩
  exact List.sorted_insertionSort _ _

theorem joined_cart_sorted (db : DB) (cid : String) :
    (joined_cart db cid).Pairwise (fun a b => a.1.id ≤ b.1.id) := by
  refine List.Pairwise.filterMap _ ?_ (cart_rows_sorted db cid)
  intro a a' h b hb b' hb'
  simp only [Option.mem_def, Option.map_eq_some'] at hb hb'
  rcases hb with ⟨p, _, rfl⟩
  rcases hb' with ⟨p', _, rfl⟩
  exact h

theorem cart_rows_nil_of_no_match (db : DB) (cid : String)
    (h : ∀ ci ∈ db.cart_items, ¬ ci.cart_id = cid) : cart_rows db cid = [] := by
  unfold cart_rows
  have hf : db.cart_items.filter (fun ci => decide (ci.cart_id = cid)) = [] := by
    rw [List.filter_eq_nil_iff]
    intro a ha
    simpa using h a ha
  rw [hf]
  rfl

theorem joined_cart_nil_of_no_match (db : DB) (cid : String)
    (h : ∀ ci ∈ db.cart_items, ¬ ci.cart_id = cid) : joined_cart db cid = [] := by
  unfold joined_cart
  rw [cart_rows_nil_of_no_match db cid h]
  rfl

/- Helper lemmas about the checkout control flow. -/

theorem checkout_buyer_valid_of_fields (inp : CheckoutInput) (now : String)
    (hname : ¬ str_or_empty inp.name = "") (hphone : ¬ str_or_empty inp.phone = "")
    (hgov : ¬ str_or_empty inp.gov = "") (hcity : ¬ str_or_empty inp.city = "")
    (haddr : ¬ str_or_empty inp.address = "") :
    ¬ ((checkout_buyer inp now).name = "" ∨ (checkout_buyer inp now).phone = "" ∨
       (checkout_buyer inp now).gov = "" ∨ (checkout_buyer inp now).city = "" ∨
       (checkout_buyer inp now).address = "") := by
  dsimp only [checkout_buyer]
  push_neg
  exact ⟨hname, hphone, hgov, hcity, haddr⟩

theorem checkout_order_eq_of_valid (db : DB) (cid : String) (inp : CheckoutInput) (now : String)
    (hval : ¬ ((checkout_buyer inp now).name = "" ∨ (checkout_buyer inp now).phone = "" ∨
      (checkout_buyer inp now).gov = "" ∨ (checkout_buyer inp now).city = "" ∨
      (checkout_buyer inp now).address = ""))
    (hcid : ¬ cid = "") (hne : ¬ joined_cart db cid = []) :
    checkout_order db (some cid) inp now =
      (.ok (insert_checkout_rows (checkout_buyer inp now) db.next_customer_id
          (joined_cart db cid)).2,
       { db with
         customers := db.customers ++
           (insert_checkout_rows (checkout_buyer inp now) db.next_customer_id
             (joined_cart db cid)).1
         next_customer_id := db.next_customer_id + ((joined_cart db cid).length : Int)
         cart_items := db.cart_items.filter (fun ci => ! decide (ci.cart_id = cid)) }) := by
  unfold checkout_order
  rw [if_neg hval]
  dsimp only
  rw [if_neg hcid, if_neg hne]

theorem checkout_order_eq_of_empty (db : DB) (cid : String) (inp : CheckoutInput) (now : String)
    (hval : ¬ ((checkout_buyer inp now).name = "" ∨ (checkout_buyer inp now).phone = "" ∨
      (checkout_buyer inp now).gov = "" ∨ (checkout_buyer inp now).city = "" ∨
      (checkout_buyer inp now).address = ""))
    (hcid : ¬ cid = "") (he : joined_cart db cid = []) :
    checkout_order db (some cid) inp now = (.emptyCart, db) := by
  unfold checkout_order
  rw [if_neg hval]
  dsimp only
  rw [if_neg hcid, he, if_pos rfl]

theorem checkout_order_customers (db : DB) (ck : Option String) (inp : CheckoutInput)
    (now : String) :
    (checkout_order db ck inp now).2.customers = db.customers ∨
    ∃ cid, (checkout_order db ck inp now).2.customers =
      db.customers ++ (insert_checkout_rows (checkout_buyer inp now) db.next_customer_id
        (joined_cart db cid)).1 := by
  unfold checkout_order
  by_cases hval : ((checkout_buyer inp now).name = "" ∨ (checkout_buyer inp now).phone = "" ∨
      (checkout_buyer inp now).gov = "" ∨ (checkout_buyer inp now).city = "" ∨
      (checkout_buyer inp now).address = "")
  · rw [if_pos hval]
    exact Or.inl rfl
  · rw [if_neg hval]
    cases ck with
    | none => exact Or.inl rfl
    | some cid =>
      dsimp only
      by_cases hcid : cid = ""
      · rw [if_pos hcid]
        exact Or.inl rfl
      · rw [if_neg hcid]
        by_cases hne : joined_cart db cid = []
        · rw [hne, if_pos rfl]
          exact Or.inl rfl
        · rw [if_neg hne]
          exact Or.inr ⟨cid, rfl⟩

theorem order_invariant_checkout_row (b : BuyerFields) (nid : Int) (it : CartItem × Product) :
    order_invariant (checkout_row b nid it) = true := by
  simp [order_invariant, checkout_row, py_float]

/- Helper lemmas about direct order creation. -/

theorem create_order_customers (db : DB) (inp : OrderInput) (now : String) :
    (create_order db inp now).2.customers = db.customers ∨
    ∃ a, py_int (py_or inp.amount (.vInt 1)) = some a ∧
      (create_order db inp now).2.customers =
        db.customers ++ [create_order_row inp now db.next_customer_id a] := by
  unfold create_order
  cases h : py_int (py_or inp.amount (.vInt 1)) with
  | none => exact Or.inl rfl
  | some a => exact Or.inr ⟨a, rfl, rfl⟩

theorem create_order_row_total_eq (inp : OrderInput) (now : String) (nid : Int) (a : Int)
    (p s : ℚ) (hp : py_float (py_or inp.price (.vInt 0)) = some p)
    (hs : py_float (py_or inp.shipping (.vInt 0)) = some s) :
    (create_order_row inp now nid a).total = .vFloat (p * ((max a 1 : Int) : ℚ) + s) := by
  unfold create_order_row
  dsimp only
  rw [hp, hs]

theorem create_order_row_total_fallback (inp : OrderInput) (now : String) (nid : Int) (a : Int)
    (h : py_float (py_or inp.price (.vInt 0)) = none ∨
      py_float (py_or inp.shipping (.vInt 0)) = none) :
    (create_order_row inp now nid a).total = py_or inp.total (.vInt 0) := by
  unfold create_order_row
  dsimp only
  rcases h with h | h
  · rw [h]
  · cases hp : py_float (py_or inp.price (.vInt 0)) with
    | none => rfl
    | some p => rw [h]

theorem order_invariant_create_order_row (inp : OrderInput) (now : String) (nid : Int) (a : Int)
    (p s : ℚ) (hp : py_float (py_or inp.price (.vInt 0)) = some p)
    (hs : py_float (py_or inp.shipping (.vInt 0)) = some s) (ha : 1 ≤ a) :
    order_invariant (create_order_row inp now nid a) = true := by
  have hp2 : py_float (create_order_row inp now nid a).price = some p := hp
  have hs2 : py_float (create_order_row inp now nid a).shipping = some s := hs
  have ht2 : py_float (create_order_row inp now nid a).total =
      some (p * ((max a 1 : Int) : ℚ) + s) := by
    rw [create_order_row_total_eq inp now nid a p s hp hs]
    rfl
  have hamt : (create_order_row inp now nid a).amount = a := rfl
  unfold order_invariant
  rw [hp2, hs2, ht2, hamt, max_eq_left ha]
  simp

/- Helper lemmas about the cart mutation endpoints. -/

theorem coerce_cart_quantity_pos (v : Option PyVal) : 1 ≤ coerce_cart_quantity v := by
  unfold coerce_cart_quantity
  rcases v with _ | w
  · exact le_refl 1
  · dsimp only
    split
    · split <;> omega
    · omega

theorem cart_line_matches_iff (item_id : Int) (cid : String) (ci : CartItem) :
    cart_line_matches item_id (some cid) ci = true ↔ (ci.id = item_id ∧ ci.cart_id = cid) := by
  simp [cart_line_matches]

theorem checkout_order_missing_of_empty_field (db : DB) (ck : Option String)
    (inp : CheckoutInput) (now : String)
    (h : str_or_empty inp.name = "" ∨ str_or_empty inp.phone = "" ∨
      str_or_empty inp.gov = "" ∨ str_or_empty inp.city = "" ∨
      str_or_empty inp.address = "") :
    checkout_order db ck inp now = (.missingFields, db) := by
  have h2 : (checkout_buyer inp now).name = "" ∨ (checkout_buyer inp now).phone = "" ∨
      (checkout_buyer inp now).gov = "" ∨ (checkout_buyer inp now).city = "" ∨
      (checkout_buyer inp now).address = "" := h
  unfold checkout_order
  rw [if_pos h2]

theorem checkout_order_not_missing_of_valid (db : DB) (ck : Option String)
    (inp : CheckoutInput) (now : String)
    (hval : ¬ (str_or_empty inp.name = "" ∨ str_or_empty inp.phone = "" ∨
      str_or_empty inp.gov = "" ∨ str_or_empty inp.city = "" ∨
      str_or_empty inp.address = "")) :
    ¬ (checkout_order db ck inp now).1 = .missingFields := by
  have hval2 : ¬ ((checkout_buyer inp now).name = "" ∨ (checkout_buyer inp now).phone = "" ∨
      (checkout_buyer inp now).gov = "" ∨ (checkout_buyer inp now).city = "" ∨
      (checkout_buyer inp now).address = "") := hval
  unfold checkout_order
  rw [if_neg hval2]
  cases ck with
  | none => simp
  | some cid =>
    dsimp only
    by_cases hcid : cid = ""
    · rw [if_pos hcid]
      simp
    · rw [if_neg hcid]
      by_cases hne : joined_cart db cid = []
      · rw [hne, if_pos rfl]
        simp
      · rw [if_neg hne]
        simp

/- Claim theorems. -/

/-- C5: with product price 250.0, cart lines of quantities 2 and 1 (in line
    id order) and shippingCost 30, checkout creates exactly the two order
    rows with totals 250*2+30 = 530 and 250*1+30 = 280: shipping is added to
    every line, once per line, not once per checkout. -/
theorem checkout_charges_shipping_per_line :
    ((checkout_order sampleDB (some "c") sampleCheckout "2024-01-01").2.customers.map
        (fun c => c.total)) = [.vFloat 530, .vFloat 280] ∧
    (checkout_order sampleDB (some "c") sampleCheckout "2024-01-01").1 = .ok [1, 2] := by
  have hj : joined_cart sampleDB "c" =
      [({ id := 1, cart_id := "c", product_id := 1, size := "M", color := "black",
          quantity := 2 }, { id := 1, name := "tee", price := 250 }),
       ({ id := 2, cart_id := "c", product_id := 1, size := "L", color := "black",
          quantity := 1 }, { id := 1, name := "tee", price := 250 })] := by decide
  have h := checkout_order_eq_of_valid sampleDB "c" sampleCheckout "2024-01-01"
    (by decide) (by decide) (by decide)
  rw [h, hj]
  constructor
  · norm_num [insert_checkout_rows_cons, insert_checkout_rows_nil, checkout_row,
      checkout_buyer, sampleDB, sampleCheckout, str_or_empty, str_or, max_def]
  · norm_num [insert_checkout_rows_cons, insert_checkout_rows_nil, checkout_row, sampleDB]

/-- C10: an addLine call carrying a present (non-falsy) product reference
    but no cart identity cookie reaches the INSERT, which violates the NOT
    NULL constraint on cart_items.cart_id: the endpoint answers with the 500
    store error and no cart line is created. -/
theorem add_to_cart_without_cookie_store_error (db : DB) (inp : AddCartInput) (pid : Int)
    (hpid : inp.product_id = some pid) (hpz : ¬ pid = 0) :
    add_to_cart db none inp = (.storeError, db) := by
  simp [add_to_cart, hpid, hpz, insert_cart_item]

/-- The C10 theorem at a concrete request: product 1, quantity 2, no cookie. -/
theorem add_to_cart_without_cookie_store_error_witness :
    add_to_cart sampleDB none
      { product_id := some 1, size := none, color := none, quantity := some (.vInt 2) } =
      (.storeError, sampleDB) :=
  add_to_cart_without_cookie_store_error sampleDB _ 1 rfl (by decide)

/-- C4 counterexample: direct order creation with numeric price 10,
    shipping 0 and the caller-supplied amount -2 stores amount -2 but total
    10*max(-2,1)+0 = 10, and 10 is not 10*(-2)+0: the claimed invariant
    fails on a system-computed row with a non-positive amount. -/
theorem create_order_negative_amount_breaks_invariant :
    ((create_order emptyDB negAmountOrder "2024-01-01").2.customers.map
      (fun c => (c.amount, c.total, order_invariant c))) = [(-2, .vFloat 10, false)] := by
  have ha : py_int (py_or negAmountOrder.amount (.vInt 1)) = some (-2) := by decide
  unfold create_order
  rw [ha]
  dsimp only
  norm_num [create_order_row, py_or, py_truthy, py_float, order_invariant, negAmountOrder,
    emptyDB, str_or_empty, str_or, max_def, decide_eq_false_iff_not]

/-- C6 counterexample: direct order creation with the non-numeric amount
    string "abc" raises in `int(...)` before any insert: the request fails
    with a 500 and no row is created, so createOrder does not succeed on
    every input. -/
theorem create_order_nonnumeric_amount_fails :
    create_order emptyDB strAmountOrder "2024-01-01" = (.serverError, emptyDB) := by
  decide

/-- C7 counterexample: an addLine call for the present product 1 with the
    positive whole-number float quantity 2.0 stores quantity 1, not 2,
    because `str(2.0)` is "2.0" and fails `isdigit()`. -/
theorem add_to_cart_float_quantity_stored_as_one :
    ((add_to_cart sampleDB (some "c")
        { product_id := some 1, size := none, color := none,
          quantity := some (.vFloat 2) }).2.cart_items.map (fun ci => ci.quantity)) =
      [2, 1, 1] ∧
    coerce_cart_quantity (some (.vFloat 2)) = 1 := by
  decide

/-- C3 counterexample: a checkout whose buyer name is the single space " "
    (empty after trimming) is not rejected: on a non-empty cart it succeeds
    and mutates the store, because the handler tests plain truthiness and
    never trims. -/
theorem checkout_whitespace_name_not_rejected :
    (checkout_order sampleDB (some "c") wsNameCheckout "2024-01-01").1 = .ok [1, 2] ∧
    ¬ (checkout_order sampleDB (some "c") wsNameCheckout "2024-01-01").2 = sampleDB := by
  decide

/-- C2: a checkout with a missing (or empty) required buyer field, or with
    no cart cookie, or whose joined cart is empty, answers with one of the
    400 responses and leaves the whole store unchanged. -/
theorem checkout_error_paths_change_nothing (db : DB) (ck : Option String)
    (inp : CheckoutInput) (now : String)
    (h : str_or_empty inp.name = "" ∨ str_or_empty inp.phone = "" ∨
         str_or_empty inp.gov = "" ∨ str_or_empty inp.city = "" ∨
         str_or_empty inp.address = "" ∨ ck = none ∨
         (∀ cid, ck = some cid → joined_cart db cid = [])) :
    ((checkout_order db ck inp now).1 = .missingFields ∨
     (checkout_order db ck inp now).1 = .noCart ∨
     (checkout_order db ck inp now).1 = .emptyCart) ∧
    (checkout_order db ck inp now).2 = db := by
  unfold checkout_order
  by_cases hval : ((checkout_buyer inp now).name = "" ∨ (checkout_buyer inp now).phone = "" ∨
      (checkout_buyer inp now).gov = "" ∨ (checkout_buyer inp now).city = "" ∨
      (checkout_buyer inp now).address = "")
  · rw [if_pos hval]
    exact ⟨Or.inl rfl, rfl⟩
  · rw [if_neg hval]
    cases ck with
    | none => exact ⟨Or.inr (Or.inl rfl), rfl⟩
    | some cid =>
      have hempty : joined_cart db cid = [] := by
        push_neg at hval
        rcases h with h | h | h | h | h | h | h
        · exact absurd h hval.1
        · exact absurd h hval.2.1
        · exact absurd h hval.2.2.1
        · exact absurd h hval.2.2.2.1
        · exact absurd h hval.2.2.2.2
        · exact absurd h (by simp)
        · exact h cid rfl
      dsimp only
      by_cases hcid : cid = ""
      · rw [if_pos hcid]
        exact ⟨Or.inr (Or.inl rfl), rfl⟩
      · rw [if_neg hcid, hempty, if_pos rfl]
        exact ⟨Or.inr (Or.inr rfl), rfl⟩

/-- The C2 theorem at a concrete call: valid store, but the buyer name is
    absent from the body. -/
theorem checkout_error_paths_change_nothing_witness :
    ((checkout_order sampleDB (some "c") { sampleCheckout with name := none }
        "2024-01-01").1 = .missingFields ∨
     (checkout_order sampleDB (some "c") { sampleCheckout with name := none }
        "2024-01-01").1 = .noCart ∨
     (checkout_order sampleDB (some "c") { sampleCheckout with name := none }
        "2024-01-01").1 = .emptyCart) ∧
    (checkout_order sampleDB (some "c") { sampleCheckout with name := none }
        "2024-01-01").2 = sampleDB :=
  checkout_error_paths_change_nothing sampleDB (some "c") _ "2024-01-01" (Or.inl rfl)

/-- C3 amended: checkout's buyer-field validation is plain untrimmed
    truthiness: the call fails with the ValidationError (the missing-fields
    400) exactly when one of the five required fields is missing or is the
    empty string — a whitespace-only value passes, since nothing is
    trimmed — and on that failure nothing is mutated. -/
theorem checkout_validation_is_untrimmed_truthiness (db : DB) (ck : Option String)
    (inp : CheckoutInput) (now : String) :
    ((checkout_order db ck inp now).1 = .missingFields ↔
      (str_or_empty inp.name = "" ∨ str_or_empty inp.phone = "" ∨
       str_or_empty inp.gov = "" ∨ str_or_empty inp.city = "" ∨
       str_or_empty inp.address = "")) ∧
    ((checkout_order db ck inp now).1 = .missingFields →
      (checkout_order db ck inp now).2 = db) := by
  by_cases hval : (str_or_empty inp.name = "" ∨ str_or_empty inp.phone = "" ∨
      str_or_empty inp.gov = "" ∨ str_or_empty inp.city = "" ∨
      str_or_empty inp.address = "")
  · rw [checkout_order_missing_of_empty_field db ck inp now hval]
    exact ⟨⟨fun _ => hval, fun _ => rfl⟩, fun _ => rfl⟩
  · have h2 := checkout_order_not_missing_of_valid db ck inp now hval
    exact ⟨⟨fun h => absurd h h2, fun h => absurd h hval⟩, fun h => absurd h h2⟩

/-- C1: for a buyer body whose five required fields are non-empty and a cart
    identity whose joined cart is non-empty, checkout answers ok with the
    created order ids, appends exactly one order row per joined cart line —
    the i-th new row being the row of the i-th joined line, the join being
    sorted by ascending cart line id (oldest first), with sequentially
    assigned ids returned in that same order — and deletes exactly the cart
    lines of that identity. -/
theorem checkout_materializes_cart_in_line_order (db : DB) (cid : String)
    (inp : CheckoutInput) (now : String)
    (hname : ¬ str_or_empty inp.name = "") (hphone : ¬ str_or_empty inp.phone = "")
    (hgov : ¬ str_or_empty inp.gov = "") (hcity : ¬ str_or_empty inp.city = "")
    (haddr : ¬ str_or_empty inp.address = "")
    (hcid : ¬ cid = "") (hne : ¬ joined_cart db cid = []) :
    ∃ rows ids,
      checkout_order db (some cid) inp now =
        (.ok ids,
         { db with
           customers := db.customers ++ rows
           next_customer_id := db.next_customer_id + ((joined_cart db cid).length : Int)
           cart_items := db.cart_items.filter (fun ci => ! decide (ci.cart_id = cid)) }) ∧
      rows.length = (joined_cart db cid).length ∧
      (∀ i : ℕ, ∀ h1 : i < rows.length, ∀ h2 : i < (joined_cart db cid).length,
        rows.get ⟨i, h1⟩ =
          checkout_row (checkout_buyer inp now) (db.next_customer_id + (i : Int))
            ((joined_cart db cid).get ⟨i, h2⟩)) ∧
      ids = rows.map (fun c => c.id) ∧
      (joined_cart db cid).Pairwise (fun a b => a.1.id ≤ b.1.id) := by
  have hval := checkout_buyer_valid_of_fields inp now hname hphone hgov hcity haddr
  exact ⟨(insert_checkout_rows (checkout_buyer inp now) db.next_customer_id
      (joined_cart db cid)).1,
    (insert_checkout_rows (checkout_buyer inp now) db.next_customer_id
      (joined_cart db cid)).2,
    checkout_order_eq_of_valid db cid inp now hval hcid hne,
    insert_checkout_rows_length _ _ _,
    fun i h1 h2 => insert_checkout_rows_get _ _ _ i h1 h2,
    insert_checkout_rows_ids _ _ _,
    joined_cart_sorted db cid⟩

/-- The C1 theorem applied at the concrete two-line cart. -/
theorem checkout_materializes_cart_in_line_order_witness :
    ∃ rows ids,
      checkout_order sampleDB (some "c") sampleCheckout "2024-01-01" =
        (.ok ids,
         { sampleDB with
           customers := sampleDB.customers ++ rows
           next_customer_id := sampleDB.next_customer_id +
             ((joined_cart sampleDB "c").length : Int)
           cart_items := sampleDB.cart_items.filter
             (fun ci => ! decide (ci.cart_id = "c")) }) ∧
      rows.length = (joined_cart sampleDB "c").length ∧
      (∀ i : ℕ, ∀ h1 : i < rows.length, ∀ h2 : i < (joined_cart sampleDB "c").length,
        rows.get ⟨i, h1⟩ =
          checkout_row (checkout_buyer sampleCheckout "2024-01-01")
            (sampleDB.next_customer_id + (i : Int))
            ((joined_cart sampleDB "c").get ⟨i, h2⟩)) ∧
      ids = rows.map (fun c => c.id) ∧
      (joined_cart sampleDB "c").Pairwise (fun a b => a.1.id ≤ b.1.id) :=
  checkout_materializes_cart_in_line_order sampleDB "c" sampleCheckout "2024-01-01"
    (by decide) (by decide) (by decide) (by decide) (by decide) (by decide) (by decide)

/-- C9: on a valid buyer body and a non-empty joined cart the first checkout
    succeeds, and an immediately repeated checkout on the resulting state
    answers the EmptyCartError and changes nothing further, so no duplicate
    order rows are created. -/
theorem checkout_second_call_gets_empty_cart (db : DB) (cid : String) (inp : CheckoutInput)
    (now now2 : String)
    (hname : ¬ str_or_empty inp.name = "") (hphone : ¬ str_or_empty inp.phone = "")
    (hgov : ¬ str_or_empty inp.gov = "") (hcity : ¬ str_or_empty inp.city = "")
    (haddr : ¬ str_or_empty inp.address = "")
    (hcid : ¬ cid = "") (hne : ¬ joined_cart db cid = []) :
    (∃ ids, (checkout_order db (some cid) inp now).1 = .ok ids) ∧
    checkout_order (checkout_order db (some cid) inp now).2 (some cid) inp now2 =
      (.emptyCart, (checkout_order db (some cid) inp now).2) := by
  have hval := checkout_buyer_valid_of_fields inp now hname hphone hgov hcity haddr
  have hval2 := checkout_buyer_valid_of_fields inp now2 hname hphone hgov hcity haddr
  have h1 := checkout_order_eq_of_valid db cid inp now hval hcid hne
  constructor
  · exact ⟨_, by rw [h1]⟩
  · have hcart : (checkout_order db (some cid) inp now).2.cart_items =
        db.cart_items.filter (fun ci => ! decide (ci.cart_id = cid)) := by rw [h1]
    have hempty2 : joined_cart (checkout_order db (some cid) inp now).2 cid = [] := by
      apply joined_cart_nil_of_no_match
      intro ci hci
      rw [hcart] at hci
      have hmem := List.of_mem_filter hci
      simpa using hmem
    exact checkout_order_eq_of_empty _ cid inp now2 hval2 hcid hempty2

/-- The C9 theorem applied at the concrete two-line cart. -/
theorem checkout_second_call_gets_empty_cart_witness :
    (∃ ids, (checkout_order sampleDB (some "c") sampleCheckout "2024-01-01").1 = .ok ids) ∧
    checkout_order (checkout_order sampleDB (some "c") sampleCheckout "2024-01-01").2
        (some "c") sampleCheckout "2024-01-02" =
      (.emptyCart, (checkout_order sampleDB (some "c") sampleCheckout "2024-01-01").2) :=
  checkout_second_call_gets_empty_cart sampleDB "c" sampleCheckout "2024-01-01" "2024-01-02"
    (by decide) (by decide) (by decide) (by decide) (by decide) (by decide) (by decide)

/-- C4 amended: every checkout-created order row satisfies
    total = price * amount + shipping with its own stored amount; a row
    created by direct order creation with numeric price and shipping
    satisfies total = price * max(amount, 1) + shipping instead, which
    coincides with the invariant exactly when the stored amount is at least
    1 (a caller-supplied negative amount breaks the invariant). -/
theorem computed_order_totals_follow_max_rule (db : DB) (ck : Option String)
    (inp : CheckoutInput) (now : String) (db2 : DB) (inp2 : OrderInput) (now2 : String)
    (c c2 : Customer)
    (hc : c ∈ (checkout_order db ck inp now).2.customers)
    (hc2 : c2 ∈ (create_order db2 inp2 now2).2.customers) :
    (c ∈ db.customers ∨ order_invariant c = true) ∧
    (c2 ∈ db2.customers ∨
      (∀ p s : ℚ, py_float (py_or inp2.price (.vInt 0)) = some p →
        py_float (py_or inp2.shipping (.vInt 0)) = some s →
        py_float c2.total = some (p * ((max c2.amount 1 : Int) : ℚ) + s) ∧
        (1 ≤ c2.amount → order_invariant c2 = true))) := by
  constructor
  · rcases checkout_order_customers db ck inp now with h | ⟨cid, h⟩
    · rw [h] at hc
      exact Or.inl hc
    · rw [h] at hc
      rcases List.mem_append.mp hc with hold | hnew
      · exact Or.inl hold
      · rcases mem_insert_checkout_rows _ _ _ _ hnew with ⟨m, it, _, rfl⟩
        exact Or.inr (order_invariant_checkout_row _ _ _)
  · rcases create_order_customers db2 inp2 now2 with h | ⟨a, _, h⟩
    · rw [h] at hc2
      exact Or.inl hc2
    · rw [h] at hc2
      rcases List.mem_append.mp hc2 with hold | hnew
      · exact Or.inl hold
      · have hc2eq : c2 = create_order_row inp2 now2 db2.next_customer_id a := by
          simpa using hnew
        subst hc2eq
        refine Or.inr (fun p s hp hs => ⟨?_, fun hle => ?_⟩)
        · rw [create_order_row_total_eq inp2 now2 _ a p s hp hs]
          rfl
        · exact order_invariant_create_order_row inp2 now2 _ a p s hp hs hle

/-- The C4 theorem applied at concrete calls (a missing-cookie checkout and
    a non-numeric-price order creation over a seeded store). -/
theorem computed_order_totals_follow_max_rule_witness :
    (seedCustomer ∈ seededDB.customers ∨ order_invariant seedCustomer = true) ∧
    (seedCustomer ∈ seededDB.customers ∨
      (∀ p s : ℚ, py_float (py_or strPriceOrder.price (.vInt 0)) = some p →
        py_float (py_or strPriceOrder.shipping (.vInt 0)) = some s →
        py_float seedCustomer.total =
          some (p * ((max seedCustomer.amount 1 : Int) : ℚ) + s) ∧
        (1 ≤ seedCustomer.amount → order_invariant seedCustomer = true))) :=
  computed_order_totals_follow_max_rule seededDB none sampleCheckout "2024-01-01"
    seededDB strPriceOrder "2024-01-01" seedCustomer seedCustomer (by decide) (by decide)

/-- C6 amended: direct order creation succeeds and inserts exactly one row
    whenever the amount field (after its `or 1` defaulting) coerces to an
    integer; the stored total is price * max(amount, 1) + shipping when
    price and shipping parse as numbers and otherwise the caller-supplied
    total (or 0); but a present non-coercible amount (e.g. "abc") raises
    before the insert, failing the request with a 500 and changing nothing. -/
theorem create_order_inserts_when_amount_coerces (db : DB) (inp : OrderInput) (now : String)
    (a : Int) (ha : py_int (py_or inp.amount (.vInt 1)) = some a) :
    create_order db inp now =
      (.created db.next_customer_id,
        { db with
          customers := db.customers ++ [create_order_row inp now db.next_customer_id a]
          next_customer_id := db.next_customer_id + 1 }) ∧
    (∀ p s : ℚ, py_float (py_or inp.price (.vInt 0)) = some p →
      py_float (py_or inp.shipping (.vInt 0)) = some s →
      (create_order_row inp now db.next_customer_id a).total =
        .vFloat (p * ((max a 1 : Int) : ℚ) + s)) ∧
    ((py_float (py_or inp.price (.vInt 0)) = none ∨
      py_float (py_or inp.shipping (.vInt 0)) = none) →
      (create_order_row inp now db.next_customer_id a).total = py_or inp.total (.vInt 0)) ∧
    (∀ inp2 : OrderInput, py_int (py_or inp2.amount (.vInt 1)) = none →
      create_order db inp2 now = (.serverError, db)) := by
  refine ⟨?_, fun p s hp hs => create_order_row_total_eq inp now _ a p s hp hs,
    fun h => create_order_row_total_fallback inp now _ a h, fun inp2 h2 => ?_⟩
  · unfold create_order
    rw [ha]
  · unfold create_order
    rw [h2]

/-- The C6 theorem applied at the concrete order body with amount -2. -/
theorem create_order_inserts_when_amount_coerces_witness :
    (create_order emptyDB negAmountOrder "2024-01-01" =
      (.created emptyDB.next_customer_id,
        { emptyDB with
          customers := emptyDB.customers ++
            [create_order_row negAmountOrder "2024-01-01" emptyDB.next_customer_id (-2)]
          next_customer_id := emptyDB.next_customer_id + 1 })) ∧
    (∀ p s : ℚ, py_float (py_or negAmountOrder.price (.vInt 0)) = some p →
      py_float (py_or negAmountOrder.shipping (.vInt 0)) = some s →
      (create_order_row negAmountOrder "2024-01-01" emptyDB.next_customer_id (-2)).total =
        .vFloat (p * ((max (-2) 1 : Int) : ℚ) + s)) ∧
    ((py_float (py_or negAmountOrder.price (.vInt 0)) = none ∨
      py_float (py_or negAmountOrder.shipping (.vInt 0)) = none) →
      (create_order_row negAmountOrder "2024-01-01" emptyDB.next_customer_id (-2)).total =
        py_or negAmountOrder.total (.vInt 0)) ∧
    (∀ inp2 : OrderInput, py_int (py_or inp2.amount (.vInt 1)) = none →
      create_order emptyDB inp2 "2024-01-01" = (.serverError, emptyDB)) :=
  create_order_inserts_when_amount_coerces emptyDB negAmountOrder "2024-01-01" (-2)
    (by decide)

/-- C7 amended: an addLine call with a present product reference inserts
    exactly one line whose stored quantity is the coerced quantity: the
    caller's value for a positive integer (or all-digit string), but 1 for
    every other input — including any float such as 2.0, whose `str()` is
    never all digits — and always at least 1; an absent (or falsy) product
    reference fails with the 400 MissingProductError and inserts nothing. -/
theorem add_to_cart_quantity_rule (db : DB) (cid : String) (inp : AddCartInput)
    (pid : Int) (hpid : inp.product_id = some pid) (hpz : ¬ pid = 0) :
    add_to_cart db (some cid) inp =
      (.created db.next_cart_item_id,
       { db with
         cart_items := db.cart_items ++
           [{ id := db.next_cart_item_id, cart_id := cid, product_id := pid,
              size := str_or_empty inp.size, color := str_or_empty inp.color,
              quantity := coerce_cart_quantity inp.quantity }]
         next_cart_item_id := db.next_cart_item_id + 1 }) ∧
    1 ≤ coerce_cart_quantity inp.quantity ∧
    (∀ n : Int, inp.quantity = some (.vInt n) → 1 ≤ n →
      coerce_cart_quantity inp.quantity = n) ∧
    (∀ q : ℚ, inp.quantity = some (.vFloat q) → coerce_cart_quantity inp.quantity = 1) ∧
    (∀ db2 : DB, ∀ inp2 : AddCartInput,
      inp2.product_id = none ∨ inp2.product_id = some 0 →
      add_to_cart db2 (some cid) inp2 = (.missingProduct, db2)) := by
  refine ⟨?_, coerce_cart_quantity_pos inp.quantity, fun n hn h1 => ?_, fun q hq => ?_,
    fun db2 inp2 h => ?_⟩
  · unfold add_to_cart
    rw [hpid]
    dsimp only
    rw [if_neg hpz]
    rfl
  · rw [hn]
    have h0 : (0 : Int) ≤ n := by omega
    simp only [coerce_cart_quantity, py_str_isdigit, py_int, Option.getD_some, h0,
      decide_true_eq_true, decide_eq_true_eq, if_true]
    split <;> omega
  · rw [hq]
    rfl
  · rcases h with h | h
    · unfold add_to_cart
      rw [h]
    · unfold add_to_cart
      rw [h]
      dsimp only
      rw [if_pos rfl]

/-- The C7 theorem applied at a concrete addLine call with quantity 3. -/
theorem add_to_cart_quantity_rule_witness :
    add_to_cart sampleDB (some "c")
      { product_id := some 1, size := none, color := none, quantity := some (.vInt 3) } =
      (.created sampleDB.next_cart_item_id,
       { sampleDB with
         cart_items := sampleDB.cart_items ++
           [{ id := sampleDB.next_cart_item_id, cart_id := "c", product_id := 1,
              size := str_or_empty none, color := str_or_empty none,
              quantity := coerce_cart_quantity (some (.vInt 3)) }]
         next_cart_item_id := sampleDB.next_cart_item_id + 1 }) ∧
    1 ≤ coerce_cart_quantity (some (.vInt 3)) ∧
    (∀ n : Int, (some (.vInt 3) : Option PyVal) = some (.vInt n) → 1 ≤ n →
      coerce_cart_quantity (some (.vInt 3)) = n) ∧
    (∀ q : ℚ, (some (.vInt 3) : Option PyVal) = some (.vFloat q) →
      coerce_cart_quantity (some (.vInt 3)) = 1) ∧
    (∀ db2 : DB, ∀ inp2 : AddCartInput,
      inp2.product_id = none ∨ inp2.product_id = some 0 →
      add_to_cart db2 (some "c") inp2 = (.missingProduct, db2)) :=
  add_to_cart_quantity_rule sampleDB "c"
    { product_id := some 1, size := none, color := none, quantity := some (.vInt 3) }
    1 rfl (by decide)

/-- C8: an updateLine call with an integer quantity on a line owned by the
    caller's identity deletes the matching line when the quantity is ≤ 0 and
    sets its stored quantity when it is > 0; on a line id that does not
    exist or belongs to another identity it answers the 404 NotFoundError
    and the store is unchanged. -/
theorem update_cart_item_rule (db : DB) (cid : String) (item_id : Int)
    (inp : UpdateCartInput) (q : Int) (hq : inp.quantity = some (.vInt q)) :
    ((∃ ci ∈ db.cart_items, ci.id = item_id ∧ ci.cart_id = cid) →
      (q ≤ 0 → update_cart_item db (some cid) item_id inp =
        (.ok, { db with cart_items :=
          db.cart_items.filter (fun ci => ! cart_line_matches item_id (some cid) ci) })) ∧
      (0 < q → update_cart_item db (some cid) item_id inp =
        (.ok, { db with cart_items :=
          db.cart_items.map (fun ci =>
            if cart_line_matches item_id (some cid) ci
            then { ci with quantity := q } else ci) }))) ∧
    ((∀ ci ∈ db.cart_items, ¬ (ci.id = item_id ∧ ci.cart_id = cid)) →
      update_cart_item db (some cid) item_id inp = (.notFound, db)) := by
  unfold update_cart_item
  rw [hq]
  dsimp only [py_int]
  constructor
  · rintro ⟨ci, hci, hmatch⟩
    have hcount : ¬ db.cart_items.countP (cart_line_matches item_id (some cid)) = 0 := by
      intro h0
      exact absurd ((cart_line_matches_iff item_id cid ci).mpr hmatch)
        (List.countP_eq_zero.mp h0 ci hci)
    constructor
    · intro hq0
      rw [if_neg hcount, if_pos hq0]
    · intro hqpos
      rw [if_neg hcount, if_neg (by omega : ¬ q ≤ 0)]
  · intro hnone
    have hcount : db.cart_items.countP (cart_line_matches item_id (some cid)) = 0 :=
      List.countP_eq_zero.mpr (fun a ha => by
        intro hb
        exact absurd ((cart_line_matches_iff item_id cid a).mp hb) (hnone a ha))
    have hfilter : db.cart_items.filter
        (fun ci => ! cart_line_matches item_id (some cid) ci) = db.cart_items :=
      List.filter_eq_self.mpr (fun a ha => by
        show (! cart_line_matches item_id (some cid) a) = true
        cases hb : cart_line_matches item_id (some cid) a with
        | true => exact absurd ((cart_line_matches_iff item_id cid a).mp hb) (hnone a ha)
        | false => rfl)
    have hmap : db.cart_items.map
        (fun ci => if cart_line_matches item_id (some cid) ci
          then { ci with quantity := q } else ci) = db.cart_items := by
      have hpt : ∀ a ∈ db.cart_items,
          (if cart_line_matches item_id (some cid) a
            then { a with quantity := q } else a) = a := by
        intro a ha
        rw [if_neg]
        intro hb
        exact absurd ((cart_line_matches_iff item_id cid a).mp hb) (hnone a ha)
      calc db.cart_items.map (fun ci => if cart_line_matches item_id (some cid) ci
              then { ci with quantity := q } else ci)
          = db.cart_items.map id := List.map_congr_left hpt
        _ = db.cart_items := List.map_id db.cart_items
    rw [if_pos hcount]
    by_cases hq0 : q ≤ 0
    · rw [if_pos hq0, hfilter]
    · rw [if_neg hq0, hmap]

/-- The C8 theorem applied at a concrete quantity-0 PATCH on line 1. -/
theorem update_cart_item_rule_witness :
    ((∃ ci ∈ sampleDB.cart_items, ci.id = 1 ∧ ci.cart_id = "c") →
      ((0 : Int) ≤ 0 → update_cart_item sampleDB (some "c") 1 { quantity := some (.vInt 0) } =
        (.ok, { sampleDB with cart_items :=
          sampleDB.cart_items.filter (fun ci => ! cart_line_matches 1 (some "c") ci) })) ∧
      ((0 : Int) < 0 → update_cart_item sampleDB (some "c") 1 { quantity := some (.vInt 0) } =
        (.ok, { sampleDB with cart_items :=
          sampleDB.cart_items.map (fun ci =>
            if cart_line_matches 1 (some "c") ci
            then { ci with quantity := 0 } else ci) }))) ∧
    ((∀ ci ∈ sampleDB.cart_items, ¬ (ci.id = 1 ∧ ci.cart_id = "c")) →
      update_cart_item sampleDB (some "c") 1 { quantity := some (.vInt 0) } =
        (.notFound, sampleDB)) :=
  update_cart_item_rule sampleDB "c" 1 { quantity := some (.vInt 0) } 0 rfl

end GenzShop
